import Mathlib

/-!
Shallow embedding of the RFID scan-acquisition pipeline from
src/rfid_listener.py and src/rfid_listener_enhanced.py.

Strings are modelled as lists of characters; wall-clock time as rationals
(seconds); the HTTP layer as an abstract outcome supplied by the
environment.  Emissions of the pipeline (candidate identifiers handed to
process_scan, the POST requests issued, the log records written) are made
explicit outputs so that the theorems below can speak about them.
-/

namespace Rfid

/-! ### Configuration constants (module-level constants of both listeners) -/

/-- SCAN_TIMEOUT = 2.0: seconds of inactivity before a buffered scan is flushed. -/
def SCAN_TIMEOUT : ℚ := 2

/-- MIN_RFID_LENGTH = 6. -/
def MIN_RFID_LENGTH : Nat := 6

/-- MAX_RFID_LENGTH = 20. -/
def MAX_RFID_LENGTH : Nat := 20

/-! ### Python string primitives used by the listeners -/

/-- Whitespace characters removed by Python str.strip() on the ASCII range:
space, tab, newline, carriage return, vertical tab, form feed. -/
def pyIsSpace (c : Char) : Bool :=
  c = ' ' || c = '\t' || c = '\n' || c = '\r' || c = Char.ofNat 11 || c = Char.ofNat 12

/-- Python s.strip(): remove leading and trailing whitespace. -/
def pyStrip (s : List Char) : List Char :=
  ((s.dropWhile pyIsSpace).reverse.dropWhile pyIsSpace).reverse

/-- Python s.replace(' ', ''): remove every space character (U+0020 only). -/
def removeSpaces (s : List Char) : List Char :=
  s.filter (fun c => c != ' ')

/-- Python s.isalnum() on the ASCII alphabet the reader emits: true iff the
string is non-empty and every character is a letter or a digit. -/
def pyIsAlnum (s : List Char) : Bool :=
  !s.isEmpty && s.all Char.isAlphanum

/-! ### Validator (RFIDListener.is_valid_rfid, identical in the enhanced listener) -/

/-- is_valid_rfid: non-empty, length within [MIN_RFID_LENGTH, MAX_RFID_LENGTH],
and alphanumeric after removing spaces. -/
def is_valid_rfid (rfid : List Char) : Bool :=
  if rfid.isEmpty then false
  else if rfid.length < MIN_RFID_LENGTH || rfid.length > MAX_RFID_LENGTH then false
  else pyIsAlnum (removeSpaces rfid)

/-! ### Delivery client and process_scan -/

/-- Severity levels of the logging module as used by the listeners. -/
inductive LogLevel
  | debug | info | warning | error
deriving DecidableEq, Repr

/-- The distinct log records process_scan can write. -/
inductive LogMsg
  | invalidFormat (rfid : List Char)
  | duplicateScan (rfid : List Char)
  | processingScan (rfid : List Char)
  | mappedResult
  | playbackOk
  | playbackFailed
  | notMapped
  | flaskStatusError (code : Nat)
  | requestError
deriving DecidableEq, Repr

/-- One requests.post made to the Flask scan endpoint: the json body is
the single field rfid, and the request timeout is timeoutSec seconds. -/
structure ScanRequest where
  rfid : List Char
  timeoutSec : ℚ
deriving DecidableEq, Repr

/-- The environment response to a POST: a 200 response with its parsed json
fields, a non-200 status, or a transport error (requests raised). -/
inductive HttpOutcome
  | ok (mapped : Bool) (playback_triggered : Bool)
  | status (code : Nat)
  | transportError
deriving DecidableEq, Repr

/-- What one call of process_scan produced: the updated last_scan_time
field, the POST requests issued (in order), and the log records written. -/
structure ScanOutcome where
  last_scan_time : ℚ
  requests : List ScanRequest
  logs : List (LogLevel × LogMsg)
deriving DecidableEq, Repr

/-- Log records written by the response-interpretation branch of
process_scan for a delivered request. -/
def responseLogs (outcome : HttpOutcome) : List (LogLevel × LogMsg) :=
  match outcome with
  | .ok true true => [(.info, .mappedResult), (.info, .playbackOk)]
  | .ok true false => [(.info, .mappedResult), (.warning, .playbackFailed)]
  | .ok false _ => [(.info, .notMapped)]
  | .status c => [(.error, .flaskStatusError c)]
  | .transportError => [(.error, .requestError)]

/-- RFIDListener.process_scan (the enhanced listener's copy has the same
behaviour): strip the raw data, validate, drop duplicates inside the 1.0s
window without touching last_scan_time, otherwise update last_scan_time to
now and POST once with a 5 second timeout; the HTTP outcome only affects
the log records. -/
def process_scan (last_scan_time : ℚ) (now : ℚ) (rfid_data : List Char)
    (outcome : HttpOutcome) : ScanOutcome :=
  let rfid := pyStrip rfid_data
  if !is_valid_rfid rfid then
    ⟨last_scan_time, [], [(.warning, .invalidFormat rfid)]⟩
  else if now - last_scan_time < 1 then
    ⟨last_scan_time, [], [(.debug, .duplicateScan rfid)]⟩
  else
    ⟨now, [⟨rfid, 5⟩], (.info, .processingScan rfid) :: responseLogs outcome⟩

/-! ### Scan Assembler (RFIDListener: scan_buffer, scan_timer, debounce) -/

/-- Mutable fields of RFIDListener relevant to the assembler: the dedup
timestamp, the character buffer, and the pending threading.Timer modelled
by its scheduled fire time (None when no timer is pending). -/
structure ListenerState where
  last_scan_time : ℚ
  scan_buffer : List Char
  scan_timer : Option ℚ
deriving DecidableEq, Repr

/-- One call of process_scan made by the assembler: the candidate handed
over, the wall-clock time of the call, and what the call produced. -/
structure Emit where
  cand : List Char
  time : ℚ
  requests : List ScanRequest
  logs : List (LogLevel × LogMsg)
deriving DecidableEq, Repr

/-- RFIDListener.flush_scan_buffer at wall-clock time now: process the
buffer if non-empty, clear it, and clear the timer slot. -/
def flush_scan_buffer (outcome : HttpOutcome) (s : ListenerState) (now : ℚ) :
    ListenerState × List Emit :=
  if s.scan_buffer.isEmpty then
    ({ s with scan_timer := none }, [])
  else
    let r := process_scan s.last_scan_time now s.scan_buffer outcome
    (⟨r.last_scan_time, [], none⟩, [⟨s.scan_buffer, now, r.requests, r.logs⟩])

/-- The newline and carriage-return terminators recognised by
RFIDListener.handle_input_char. -/
def isTerminator (c : Char) : Bool :=
  c = '\n' || c = '\r'

/-- RFIDListener.handle_input_char at wall-clock time now: a terminator
cancels the pending timer and processes a non-empty buffer immediately; any
other character is appended and the debounce timer is cancelled and
rescheduled at now + SCAN_TIMEOUT. -/
def handle_input_char (outcome : HttpOutcome) (s : ListenerState) (c : Char)
    (now : ℚ) : ListenerState × List Emit :=
  if isTerminator c then
    if s.scan_buffer.isEmpty then
      ({ s with scan_timer := none }, [])
    else
      let r := process_scan s.last_scan_time now s.scan_buffer outcome
      (⟨r.last_scan_time, [], none⟩, [⟨s.scan_buffer, now, r.requests, r.logs⟩])
  else
    ({ s with
        scan_buffer := s.scan_buffer ++ [c],
        scan_timer := some (now + SCAN_TIMEOUT) }, [])

/-- Fire the pending debounce timer if it is due strictly before time t.
A token arriving at the very moment the timer would fire wins: cancellation
precedes new token processing (spec section 4.3 tie rule). -/
def fireIfDue (outcome : HttpOutcome) (s : ListenerState) (t : ℚ) :
    ListenerState × List Emit :=
  match s.scan_timer with
  | none => (s, [])
  | some tf => if tf < t then flush_scan_buffer outcome s tf else (s, [])

/-- After the last input, a still-pending timer fires at its scheduled time. -/
def drain (outcome : HttpOutcome) (s : ListenerState) : ListenerState × List Emit :=
  match s.scan_timer with
  | none => (s, [])
  | some tf => flush_scan_buffer outcome s tf

/-- Timed run of the assembler over characters arriving at nondecreasing
wall-clock times, interleaving due timer firings, and letting the final
pending timer fire after the input ends. -/
def runTimed (outcome : HttpOutcome) (s : ListenerState) :
    List (Char × ℚ) → ListenerState × List Emit
  | [] => drain outcome s
  | (c, t) :: rest =>
    let p1 := fireIfDue outcome s t
    let p2 := handle_input_char outcome p1.1 c t
    let p3 := runTimed outcome p2.1 rest
    (p3.1, p1.2 ++ p2.2 ++ p3.2)

/-! ### Dedup bookkeeping over a sequence of scans -/

/-- Process a chronological list of (raw candidate, time) scans through
process_scan, threading last_scan_time; returns the final timestamp and the
accepted (delivered rfid, acceptance time) pairs in order. -/
def processList (outcome : HttpOutcome) : ℚ → List (List Char × ℚ) → ℚ × List (List Char × ℚ)
  | last, [] => (last, [])
  | last, (raw, t) :: rest =>
    let r := process_scan last t raw outcome
    let pr := processList outcome r.last_scan_time rest
    (pr.1, r.requests.map (fun q => (q.rfid, t)) ++ pr.2)

/-- Each listed time is at least 1 second after its predecessor, anchored
at the incoming last-acceptance timestamp. -/
def gapsOk (last : ℚ) : List ℚ → Prop
  | [] => True
  | t :: ts => 1 ≤ t - last ∧ gapsOk t ts

/-! ### Enhanced listener: stdin fallback and device read loop -/

/-- Mutable fields of EnhancedRFIDListener shared by both read loops: the
dedup timestamp and the local scan buffer.  Neither enhanced read loop owns
a debounce timer. -/
structure SimpleState where
  last_scan_time : ℚ
  scan_buffer : List Char
deriving DecidableEq, Repr

/-- EnhancedRFIDListener.read_rfid_from_stdin, one character step: newline
or carriage return processes the stripped buffer when non-blank and clears
it; any other character is appended.  There is no timer. -/
def stdinStep (outcome : HttpOutcome) (s : SimpleState) (c : Char) (now : ℚ) :
    SimpleState × List Emit :=
  if isTerminator c then
    if (pyStrip s.scan_buffer).isEmpty then (s, [])
    else
      let r := process_scan s.last_scan_time now (pyStrip s.scan_buffer) outcome
      (⟨r.last_scan_time, []⟩, [⟨pyStrip s.scan_buffer, now, r.requests, r.logs⟩])
  else
    ({ s with scan_buffer := s.scan_buffer ++ [c] }, [])

/-- Timed run of the stdin fallback loop. -/
def stdinRun (outcome : HttpOutcome) (s : SimpleState) :
    List (Char × ℚ) → SimpleState × List Emit
  | [] => (s, [])
  | (c, t) :: rest =>
    let p1 := stdinStep outcome s c t
    let p2 := stdinRun outcome p1.1 rest
    (p2.1, p1.2 ++ p2.2)

/-- struct.calcsize('llHHI') on the target platform: 24 bytes. -/
def EVENT_SIZE : Nat := 24

/-- Decoded fields of one full input event record (two timestamps, 16-bit
type, 16-bit code, 32-bit value). -/
structure InputEvent where
  sec : Int
  usec : Int
  etype : Nat
  code : Nat
  value : Nat
deriving DecidableEq, Repr

/-- One device.read(EVENT_SIZE) result: either a full record of exactly
EVENT_SIZE bytes decoded into fields, or a short read of some other
length. -/
inductive DeviceRecord
  | full (e : InputEvent)
  | short (len : Nat)
deriving DecidableEq, Repr

/-- The static keycode table of EnhancedRFIDListener.keycode_to_char. -/
def keymap : List (Nat × Char) :=
  [(2, '1'), (3, '2'), (4, '3'), (5, '4'), (6, '5'),
   (7, '6'), (8, '7'), (9, '8'), (10, '9'), (11, '0'),
   (16, 'q'), (17, 'w'), (18, 'e'), (19, 'r'), (20, 't'),
   (21, 'y'), (22, 'u'), (23, 'i'), (24, 'o'), (25, 'p'),
   (30, 'a'), (31, 's'), (32, 'd'), (33, 'f'), (34, 'g'),
   (35, 'h'), (36, 'j'), (37, 'k'), (38, 'l'),
   (44, 'z'), (45, 'x'), (46, 'c'), (47, 'v'), (48, 'b'),
   (49, 'n'), (50, 'm'),
   (28, '\n')]

/-- EnhancedRFIDListener.keycode_to_char; Python returns the empty (falsy)
string on a table miss, modelled as none. -/
def keycode_to_char (keycode : Nat) : Option Char :=
  keymap.lookup keycode

/-- The buffer handling read_rfid_from_device applies to one decoded
character: newline processes the stripped buffer when non-blank and clears
it; any other character is appended. -/
def deviceCharStep (outcome : HttpOutcome) (s : SimpleState) (c : Char) (now : ℚ) :
    SimpleState × List Emit :=
  if c = '\n' then
    if (pyStrip s.scan_buffer).isEmpty then (s, [])
    else
      let r := process_scan s.last_scan_time now (pyStrip s.scan_buffer) outcome
      (⟨r.last_scan_time, []⟩, [⟨pyStrip s.scan_buffer, now, r.requests, r.logs⟩])
  else
    ({ s with scan_buffer := s.scan_buffer ++ [c] }, [])

/-- Timed run of deviceCharStep over already-decoded characters. -/
def deviceCharRun (outcome : HttpOutcome) (s : SimpleState) :
    List (Char × ℚ) → SimpleState × List Emit
  | [] => (s, [])
  | (c, t) :: rest =>
    let p1 := deviceCharStep outcome s c t
    let p2 := deviceCharRun outcome p1.1 rest
    (p2.1, p1.2 ++ p2.2)

/-- EnhancedRFIDListener.read_rfid_from_device, one record step: a short
read is discarded (the loop sleeps and retries); a full record contributes
only when it is a key-press event (type 1, value 1) whose code the table
maps. -/
def deviceStep (outcome : HttpOutcome) (s : SimpleState) (r : DeviceRecord)
    (now : ℚ) : SimpleState × List Emit :=
  match r with
  | .short _ => (s, [])
  | .full e =>
    if e.etype = 1 ∧ e.value = 1 then
      match keycode_to_char e.code with
      | some c => deviceCharStep outcome s c now
      | none => (s, [])
    else (s, [])

/-- Timed run of the device read loop over a list of read results; the
loop is total: every record is consumed and none aborts it. -/
def deviceRun (outcome : HttpOutcome) (s : SimpleState) :
    List (DeviceRecord × ℚ) → SimpleState × List Emit
  | [] => (s, [])
  | (r, t) :: rest =>
    let p1 := deviceStep outcome s r t
    let p2 := deviceRun outcome p1.1 rest
    (p2.1, p1.2 ++ p2.2)

/-! ### Device Locator (EnhancedRFIDListener.find_rfid_device) -/

/-- One block of /proc/bus/input/devices as the locator inspects it:
whether some RFID_READER_PATTERNS regex matches the block text, the first
eventN handler the findall extracts (if any), and whether the derived
/dev/input path exists. -/
structure ProcBlock where
  matchesPattern : Bool
  handler : Option String
  handlerExists : Bool
deriving DecidableEq, Repr

/-- One entry of /dev/input/by-id: whether some pattern matches its name,
whether the path exists, and the resolved real path. -/
structure ByIdEntry where
  matchesPattern : Bool
  pathExists : Bool
  realPath : String
deriving DecidableEq, Repr

/-- The file-system facts the locator consults: the parsed registry blocks
(none when reading /proc/bus/input/devices raised, which the code catches),
whether /dev/input/by-id exists, and its entries. -/
structure DeviceEnv where
  procBlocks : Option (List ProcBlock)
  byIdExists : Bool
  byIdEntries : List ByIdEntry
deriving DecidableEq, Repr

/-- Method 1 per block: a matching block with an extracted handler whose
path exists yields that path. -/
def blockResult (b : ProcBlock) : Option String :=
  if b.matchesPattern then
    match b.handler with
    | some h => if b.handlerExists then some ("/dev/input/" ++ h) else none
    | none => none
  else none

/-- Method 2 per by-id entry: a matching existing entry yields its resolved
real path. -/
def entryResult (e : ByIdEntry) : Option String :=
  if e.matchesPattern && e.pathExists then some e.realPath else none

/-- EnhancedRFIDListener.find_rfid_device: registry scan, then by-id scan,
then the bounded enumeration of /dev/input/event0..19, which only logs the
candidates and selects none. -/
def find_rfid_device (env : DeviceEnv) : Option String :=
  match (match env.procBlocks with
         | some bs => bs.findSome? blockResult
         | none => none) with
  | some p => some p
  | none =>
    if env.byIdExists then
      match env.byIdEntries.findSome? entryResult with
      | some p => some p
      | none => none
    else none

/-! ### Device Liveness Probe (EnhancedRFIDListener.test_device_input) -/

/-- The Python values test_device_input can return: True, False, or None
(the fall-through when select reports ready but the read yields no bytes). -/
inductive ProbeResult
  | rTrue | rFalse | rNone
deriving DecidableEq, Repr

/-- How the probed device behaves during the 5 second select wait. -/
inductive DeviceBehavior
  | readyData | readyEmpty | timeout | permissionDenied | otherError
deriving DecidableEq, Repr

/-- The distinct log records test_device_input can write. -/
inductive ProbeMsg
  | testingDevice | openedDevice | producingData | noInputTimeout
  | permissionDeniedMsg | remediationUsermod | remediationNewgrp | testError
deriving DecidableEq, Repr

/-- EnhancedRFIDListener.test_device_input: the value returned to the
caller and the log records written, for each device behaviour.  A timeout
returns False after an info record; a PermissionError also returns False,
after an error record and two operator-facing remediation info records. -/
def test_device_input (b : DeviceBehavior) : ProbeResult × List (LogLevel × ProbeMsg) :=
  match b with
  | .readyData =>
    (.rTrue, [(.info, .testingDevice), (.info, .openedDevice), (.info, .producingData)])
  | .readyEmpty =>
    (.rNone, [(.info, .testingDevice), (.info, .openedDevice)])
  | .timeout =>
    (.rFalse, [(.info, .testingDevice), (.info, .openedDevice), (.info, .noInputTimeout)])
  | .permissionDenied =>
    (.rFalse, [(.info, .testingDevice), (.error, .permissionDeniedMsg),
               (.info, .remediationUsermod), (.info, .remediationNewgrp)])
  | .otherError =>
    (.rFalse, [(.info, .testingDevice), (.error, .testError)])

/-- Python truthiness of the returned value as tested by
`if self.test_device_input(...)` in start_listening. -/
def probeTruthy : ProbeResult → Bool
  | .rTrue => true
  | .rFalse => false
  | .rNone => false

/-! ### Acquisition Strategy Selector (EnhancedRFIDListener.start_listening) -/

/-- The chosen read strategy. -/
inductive AcquisitionStrategy
  | DeviceRead (path : String)
  | StdinRead
deriving DecidableEq, Repr

/-- The selector outcome: the strategy driven afterwards and whether the
liveness probe was invoked at all. -/
structure SelectorResult where
  strategy : AcquisitionStrategy
  probeInvoked : Bool
deriving DecidableEq, Repr

/-- EnhancedRFIDListener.start_listening strategy selection: locate a
device; when found, probe it and fall back to stdin unless the probe
result is truthy; when not found, use stdin without probing. -/
def start_listening (env : DeviceEnv) (probe : String → Bool) : SelectorResult :=
  match find_rfid_device env with
  | some p => if probe p then ⟨.DeviceRead p, true⟩ else ⟨.StdinRead, true⟩
  | none => ⟨.StdinRead, false⟩

/-- The log record the caller writes about the probe outcome. -/
inductive CallerMsg
  | usingDevice | deviceTestFailed | usingStdinNoDevice
deriving DecidableEq, Repr

/-- start_listening after the locator yielded path p and the device behaves
as b: the caller branches only on the truthiness of the probe result. -/
def selectorAfterProbe (b : DeviceBehavior) (p : String) :
    AcquisitionStrategy × CallerMsg :=
  if probeTruthy (test_device_input b).1 then (.DeviceRead p, .usingDevice)
  else (.StdinRead, .deviceTestFailed)

/-! ### Concrete inputs used by counterexamples and witnesses -/

/-- A candidate of six spaces: length 6, all characters removed by the
space filter. -/
def spacesSix : List Char := List.replicate 6 ' '

/-- Six digit characters all arriving at time 0 with no terminator. -/
def burstNoTerm : List (Char × ℚ) :=
  [('1', 0), ('2', 0), ('3', 0), ('4', 0), ('5', 0), ('6', 0)]

/-- A raw buffer of length 22: a valid identifier padded with 16 trailing
spaces. -/
def paddedRaw : List Char := "123456".toList ++ List.replicate 16 ' '

/-- A probe that always fails, for witnesses. -/
def probeNever (_ : String) : Bool := false

/-- The characters of scenario C, all arriving at time 0. -/
def scenarioCChars : List (Char × ℚ) :=
  [('A', 0), ('1', 0), ('B', 0), ('2', 0), ('C', 0), ('3', 0)]

/-- An environment whose registry block and by-id directory match nothing. -/
def envNoMatch : DeviceEnv :=
  ⟨some [⟨false, none, false⟩], false, []⟩

/-! ### Helper lemmas -/

lemma head?_dropWhile_not (p : Char → Bool) :
    ∀ (l : List Char) (c : Char), (l.dropWhile p).head? = some c → p c = false := by
  intro l
  induction l with
  | nil => intro c h; simp [List.dropWhile] at h
  | cons a t ih =>
    intro c h
    by_cases hp : p a
    · rw [List.dropWhile_cons, if_pos hp] at h
      exact ih c h
    · rw [List.dropWhile_cons, if_neg hp] at h
      simp at h
      rw [← h]
      exact Bool.eq_false_iff.mpr hp

lemma getLast?_dropWhile (p : Char → Bool) :
    ∀ (l : List Char) (c : Char), (l.dropWhile p).getLast? = some c →
      l.getLast? = some c := by
  intro l
  induction l with
  | nil => intro c h; simp [List.dropWhile] at h
  | cons a t ih =>
    intro c h
    by_cases hp : p a
    · rw [List.dropWhile_cons, if_pos hp] at h
      have ht := ih c h
      cases t with
      | nil => simp at ht
      | cons b t2 => rw [List.getLast?_cons_cons]; exact ht
    · rw [List.dropWhile_cons, if_neg hp] at h
      exact h

lemma pyStrip_head (l : List Char) (c : Char) :
    (pyStrip l).head? = some c → pyIsSpace c = false := by
  intro h
  unfold pyStrip at h
  rw [List.head?_reverse] at h
  have h2 := getLast?_dropWhile pyIsSpace _ c h
  rw [List.getLast?_reverse] at h2
  exact head?_dropWhile_not pyIsSpace _ c h2

lemma pyStrip_getLast (l : List Char) (c : Char) :
    (pyStrip l).getLast? = some c → pyIsSpace c = false := by
  intro h
  unfold pyStrip at h
  rw [List.getLast?_reverse] at h
  exact head?_dropWhile_not pyIsSpace _ c h

lemma process_scan_requests_eq (last now : ℚ) (raw : List Char)
    (outcome : HttpOutcome) :
    (process_scan last now raw outcome).requests =
      if is_valid_rfid (pyStrip raw) = true ∧ 1 ≤ now - last
      then [⟨pyStrip raw, 5⟩] else [] := by
  unfold process_scan
  by_cases hv : is_valid_rfid (pyStrip raw) = true
  · by_cases hd : now - last < 1
    · have hn : ¬ (1 ≤ now - last) := not_le.mpr hd
      simp [hv, hd, hn]
    · have hy : 1 ≤ now - last := not_lt.mp hd
      simp [hv, hd, hy]
  · simp [hv]

lemma process_scan_last_eq (last now : ℚ) (raw : List Char)
    (outcome : HttpOutcome) :
    (process_scan last now raw outcome).last_scan_time =
      if is_valid_rfid (pyStrip raw) = true ∧ 1 ≤ now - last
      then now else last := by
  unfold process_scan
  by_cases hv : is_valid_rfid (pyStrip raw) = true
  · by_cases hd : now - last < 1
    · have hn : ¬ (1 ≤ now - last) := not_le.mpr hd
      simp [hv, hd, hn]
    · have hy : 1 ≤ now - last := not_lt.mp hd
      simp [hv, hd, hy]
  · simp [hv]

lemma append_singleton_ne_self (l : List Char) (c : Char) :
    l ≠ l ++ [c] := by
  intro h
  have := congrArg List.length h
  simp at this

lemma stdinStep_eq_deviceCharStep (outcome : HttpOutcome) (s : SimpleState)
    (c : Char) (now : ℚ) (h : isTerminator c = false) :
    stdinStep outcome s c now = deviceCharStep outcome s c now := by
  have hc : ¬ c = '\n' := by
    intro hh
    subst hh
    simp [isTerminator] at h
  simp [stdinStep, deviceCharStep, h, hc]

lemma stdinStep_term_eq (outcome : HttpOutcome) (s : SimpleState)
    (term : Char) (now : ℚ) (h : isTerminator term = true) :
    stdinStep outcome s term now = deviceCharStep outcome s '\n' now := by
  simp [stdinStep, deviceCharStep, h]

lemma deviceRun_append (outcome : HttpOutcome) :
    ∀ (rs1 rs2 : List (DeviceRecord × ℚ)) (s : SimpleState),
      deviceRun outcome s (rs1 ++ rs2) =
        ((deviceRun outcome (deviceRun outcome s rs1).1 rs2).1,
         (deviceRun outcome s rs1).2 ++
           (deviceRun outcome (deviceRun outcome s rs1).1 rs2).2) := by
  intro rs1
  induction rs1 with
  | nil => intro rs2 s; simp [deviceRun]
  | cons p rest ih =>
    intro rs2 s
    obtain ⟨r, t⟩ := p
    simp only [List.cons_append, deviceRun, List.append_eq]
    rw [ih]
    simp [List.append_assoc]

lemma processList_gaps (outcome : HttpOutcome) :
    ∀ (inputs : List (List Char × ℚ)) (last : ℚ),
      gapsOk last (((processList outcome last inputs).2).map Prod.snd) := by
  intro inputs
  induction inputs with
  | nil => intro last; simp [processList, gapsOk]
  | cons p rest ih =>
    intro last
    obtain ⟨raw, t⟩ := p
    show gapsOk last ((((processList outcome last ((raw, t) :: rest))).2).map Prod.snd)
    rw [processList]
    simp only
    rw [process_scan_requests_eq, process_scan_last_eq]
    by_cases hacc : is_valid_rfid (pyStrip raw) = true ∧ 1 ≤ t - last
    · rw [if_pos hacc, if_pos hacc]
      simpa [gapsOk] using ⟨hacc.2, ih t⟩
    · rw [if_neg hacc, if_neg hacc]
      simpa using ih last

/-! ### Claim theorems -/

/-- C1, counterexample: the candidate of six spaces has length 6 within
[6, 20] and every character left after removing spaces (there are none) is
alphanumeric, yet the validator rejects it, because Python isalnum is false
on the empty string.  So acceptance is not equivalent to the claimed
predicate. -/
theorem C1_counterexample :
    is_valid_rfid spacesSix = false ∧
    MIN_RFID_LENGTH ≤ spacesSix.length ∧
    spacesSix.length ≤ MAX_RFID_LENGTH ∧
    (∀ c ∈ removeSpaces spacesSix, c.isAlphanum = true) := by
  refine ⟨by decide, by decide, by decide, by decide⟩

/-- C1, amended: the validator accepts a candidate iff its length lies in
[6, 20] and, after removing space characters, the remainder is non-empty
and every remaining character is alphanumeric; every candidate failing this
predicate is rejected and no delivery request is issued for it. -/
theorem C1_validator_characterisation :
    ∀ (rfid : List Char),
      (is_valid_rfid rfid = true ↔
        MIN_RFID_LENGTH ≤ rfid.length ∧ rfid.length ≤ MAX_RFID_LENGTH ∧
        removeSpaces rfid ≠ [] ∧ ∀ c ∈ removeSpaces rfid, c.isAlphanum = true) ∧
      (∀ (last now : ℚ) (outcome : HttpOutcome),
        is_valid_rfid (pyStrip rfid) = false →
        (process_scan last now rfid outcome).requests = []) := by
  intro rfid
  constructor
  · unfold is_valid_rfid MIN_RFID_LENGTH MAX_RFID_LENGTH
    split_ifs with h1 h2
    · simp only [false_iff, not_and]
      intro hc
      have he : rfid = [] := List.isEmpty_iff.mp h1
      subst he
      simp at hc
    · simp only [false_iff, not_and]
      intro hc hd
      simp only [Bool.or_eq_true, decide_eq_true_eq] at h2
      omega
    · simp only [Bool.or_eq_true, decide_eq_true_eq, not_or, not_lt] at h2
      simp only [pyIsAlnum, Bool.and_eq_true, List.all_eq_true, Bool.not_eq_true',
        List.isEmpty_eq_false]
      constructor
      · rintro ⟨hne, hall⟩
        exact ⟨h2.1, by omega, hne, hall⟩
      · rintro ⟨_, _, hne, hall⟩
        exact ⟨hne, hall⟩
  · intro last now outcome hv
    rw [process_scan_requests_eq]
    simp [hv]

/-- C1 witness: scenario D — the candidate ab (length 2) fails the
amended predicate, is rejected, and no delivery request is issued. -/
theorem C1_validator_characterisation_witness :
    is_valid_rfid (pyStrip "ab".toList) = false ∧
    (process_scan 0 10 "ab".toList HttpOutcome.transportError).requests = [] := by
  refine ⟨by decide, ?_⟩
  exact (C1_validator_characterisation "ab".toList).2 0 10
    HttpOutcome.transportError (by decide)

/-- C2: over any sequence of scans processed in order, consecutive
acceptances are at least 1 second apart (gapsOk, anchored at the incoming
last-acceptance timestamp); per scan, a candidate that is invalid or inside
the 1 second window leaves last_scan_time unchanged and issues no request,
and an accepted candidate sets last_scan_time to the current time and is
the one delivered. -/
theorem C2_dedup_window :
    ∀ (outcome : HttpOutcome) (last : ℚ) (inputs : List (List Char × ℚ)),
      gapsOk last (((processList outcome last inputs).2).map Prod.snd) ∧
      ∀ (now : ℚ) (raw : List Char),
        (process_scan last now raw outcome).last_scan_time =
          (if is_valid_rfid (pyStrip raw) = true ∧ 1 ≤ now - last then now else last) ∧
        (process_scan last now raw outcome).requests =
          (if is_valid_rfid (pyStrip raw) = true ∧ 1 ≤ now - last
           then [⟨pyStrip raw, 5⟩] else []) := by
  intro outcome last inputs
  exact ⟨processList_gaps outcome inputs last,
    fun now raw => ⟨process_scan_last_eq last now raw outcome,
                    process_scan_requests_eq last now raw outcome⟩⟩

/-- C3: a flush (timeout event) or a terminator emits exactly one candidate
when the buffer is non-empty and none when it is empty; the buffer is reset
to empty after either; carriage return behaves as newline; and a terminator
in the Idle state (empty buffer, no pending timer) is a no-op. -/
theorem C3_flush_exactly_once :
    ∀ (outcome : HttpOutcome) (s : ListenerState) (now : ℚ),
      ((flush_scan_buffer outcome s now).2.map Emit.cand =
        if s.scan_buffer = [] then [] else [s.scan_buffer]) ∧
      ((flush_scan_buffer outcome s now).1.scan_buffer = []) ∧
      ((flush_scan_buffer outcome s now).1.scan_timer = none) ∧
      (handle_input_char outcome s '\r' now = handle_input_char outcome s '\n' now) ∧
      ((handle_input_char outcome s '\n' now).2.map Emit.cand =
        if s.scan_buffer = [] then [] else [s.scan_buffer]) ∧
      ((handle_input_char outcome s '\n' now).1.scan_buffer = []) ∧
      (s.scan_buffer = [] → s.scan_timer = none →
        handle_input_char outcome s '\n' now = (s, [])) := by
  intro outcome s now
  obtain ⟨lst, buf, tmr⟩ := s
  by_cases hb : buf = []
  · subst hb
    refine ⟨?_, ?_, ?_, ?_, ?_, ?_, ?_⟩ <;>
      simp [flush_scan_buffer, handle_input_char, isTerminator]
    intro ht
    cases tmr with
    | none => rfl
    | some tf => exact absurd ht (by simp)
  · have hbe : buf.isEmpty = false := by simpa [List.isEmpty_eq_false] using hb
    refine ⟨?_, ?_, ?_, ?_, ?_, ?_, ?_⟩ <;>
      simp [flush_scan_buffer, handle_input_char, isTerminator, hbe, hb]

/-- C3 witness: flushing a buffered 1 at time 2 emits exactly that
candidate, and a newline in the Idle state at time 7 is a no-op. -/
theorem C3_flush_exactly_once_witness :
    ((flush_scan_buffer HttpOutcome.transportError ⟨0, ['1'], some 2⟩ 2).2.map
        Emit.cand = [['1']]) ∧
    (handle_input_char HttpOutcome.transportError ⟨0, [], none⟩ '\n' 7 =
      (⟨0, [], none⟩, [])) := by
  constructor
  · have h := (C3_flush_exactly_once HttpOutcome.transportError ⟨0, ['1'], some 2⟩ 2).1
    simpa using h
  · exact (C3_flush_exactly_once HttpOutcome.transportError
      ⟨0, [], none⟩ 7).2.2.2.2.2.2 rfl rfl

/-- C4: a non-terminator character arriving at time T into a state with no
pending flush, followed by no further input, produces exactly one flush, at
exactly T + SCAN_TIMEOUT (2.0 s) and not earlier, carrying the buffer with
the character appended; and processing any character replaces the timer
slot wholesale — a terminator leaves no pending flush and any other
character leaves exactly one, due at its own arrival time + SCAN_TIMEOUT,
so at most one flush is ever outstanding. -/
theorem C4_debounce_timer :
    ∀ (outcome : HttpOutcome) (s : ListenerState) (c : Char) (T : ℚ),
      (isTerminator c = false → s.scan_timer = none →
        (runTimed outcome s [(c, T)]).2.map Emit.time = [T + SCAN_TIMEOUT] ∧
        (runTimed outcome s [(c, T)]).2.map Emit.cand = [s.scan_buffer ++ [c]]) ∧
      ((handle_input_char outcome s c T).1.scan_timer =
        if isTerminator c then none else some (T + SCAN_TIMEOUT)) := by
  intro outcome s c T
  obtain ⟨lst, buf, tmr⟩ := s
  constructor
  · intro hc ht
    have ht2 : tmr = none := ht
    subst ht2
    have h1 : fireIfDue outcome ⟨lst, buf, none⟩ T = (⟨lst, buf, none⟩, []) := by
      simp [fireIfDue]
    have h2 : handle_input_char outcome ⟨lst, buf, none⟩ c T =
        (⟨lst, buf ++ [c], some (T + SCAN_TIMEOUT)⟩, []) := by
      simp [handle_input_char, hc]
    constructor <;>
      simp [runTimed, h1, h2, drain, flush_scan_buffer]
  · by_cases hc : isTerminator c = true
    · by_cases hb : buf.isEmpty = true <;>
        simp [handle_input_char, hc, hb]
    · have hc2 : isTerminator c = false := Bool.eq_false_iff.mpr hc
      simp [handle_input_char, hc2]

/-- C4 witness: the character 7 arriving at time 3 with no pending timer
and no further input flushes exactly once, at time 3 + SCAN_TIMEOUT. -/
theorem C4_debounce_timer_witness :
    isTerminator '7' = false ∧
    (runTimed HttpOutcome.transportError ⟨0, [], none⟩ [('7', 3)]).2.map
      Emit.time = [3 + SCAN_TIMEOUT] := by
  refine ⟨by decide, ?_⟩
  exact ((C4_debounce_timer HttpOutcome.transportError ⟨0, [], none⟩ '7' 3).1
    (by decide) rfl).1

/-- C5: when the locator yields no descriptor the strategy is StdinRead and
the probe is never invoked; when it yields one but the probe fails the
strategy is StdinRead, never DeviceRead; and when no registry block and no
by-id entry matches a signature, the locator yields none (the bounded
enumeration selects nothing automatically). -/
theorem C5_fallback_to_stdin :
    ∀ (env : DeviceEnv) (probe : String → Bool),
      (find_rfid_device env = none →
        start_listening env probe = ⟨.StdinRead, false⟩) ∧
      (∀ p, find_rfid_device env = some p → probe p = false →
        start_listening env probe = ⟨.StdinRead, true⟩) ∧
      ((∀ bs, env.procBlocks = some bs → ∀ b ∈ bs, b.matchesPattern = false) →
       (∀ e ∈ env.byIdEntries, e.matchesPattern = false) →
       find_rfid_device env = none) := by
  intro env probe
  refine ⟨?_, ?_, ?_⟩
  · intro h
    simp [start_listening, h]
  · intro p hf hp
    simp [start_listening, hf, hp]
  · intro hblocks hentries
    have h1 : (match env.procBlocks with
               | some bs => bs.findSome? blockResult
               | none => none) = none := by
      cases hpb : env.procBlocks with
      | none => rfl
      | some bs =>
        simp only
        rw [List.findSome?_eq_none_iff]
        intro b hb
        simp [blockResult, hblocks bs hpb b hb]
    have h2 : env.byIdEntries.findSome? entryResult = none := by
      rw [List.findSome?_eq_none_iff]
      intro e he
      simp [entryResult, hentries e he]
    unfold find_rfid_device
    rw [h1, h2]
    by_cases hby : env.byIdExists <;> simp [hby]

/-- C5 witness: in the concrete environment with one unmatched registry
block and no by-id directory, the locator yields none, the strategy is
StdinRead and the probe is not invoked. -/
theorem C5_fallback_to_stdin_witness :
    find_rfid_device envNoMatch = none ∧
    start_listening envNoMatch probeNever = ⟨.StdinRead, false⟩ := by
  have h := C5_fallback_to_stdin envNoMatch probeNever
  have hn : find_rfid_device envNoMatch = none := by
    refine h.2.2 ?_ ?_
    · intro bs hbs b hb
      have hbs2 : [(⟨false, none, false⟩ : ProcBlock)] = bs := by
        simpa [envNoMatch] using hbs
      subst hbs2
      simp at hb
      subst hb
      rfl
    · intro e he
      simp [envNoMatch] at he
  exact ⟨hn, h.1 hn⟩

/-- C6, counterexample: six digits arriving at time 0 with no terminator.
The Scan Assembler of the basic listener (handle_input_char with its
debounce timer) flushes the candidate 123456 once the timer fires, but the
enhanced stdin fallback loop (read_rfid_from_stdin) emits nothing at all —
it does not apply the Scan Assembler debounce/flush rules. -/
theorem C6_counterexample :
    (runTimed HttpOutcome.transportError ⟨0, [], none⟩ burstNoTerm).2.map Emit.cand =
      [['1', '2', '3', '4', '5', '6']] ∧
    (stdinRun HttpOutcome.transportError ⟨0, []⟩ burstNoTerm).2 = [] := by
  have hnl : ¬ (SCAN_TIMEOUT < (0 : ℚ)) := by norm_num [SCAN_TIMEOUT]
  have hfire0 : fireIfDue HttpOutcome.transportError ⟨0, [], none⟩ 0 =
      (⟨0, [], none⟩, []) := by
    simp [fireIfDue]
  have hfire : ∀ (buf : List Char),
      fireIfDue HttpOutcome.transportError ⟨0, buf, some (0 + SCAN_TIMEOUT)⟩ 0 =
        (⟨0, buf, some (0 + SCAN_TIMEOUT)⟩, []) := by
    intro buf
    simp [fireIfDue, hnl]
  have hstep : ∀ (buf : List Char) (tmr : Option ℚ) (c : Char),
      isTerminator c = false →
      handle_input_char HttpOutcome.transportError ⟨0, buf, tmr⟩ c 0 =
        (⟨0, buf ++ [c], some (0 + SCAN_TIMEOUT)⟩, []) := by
    intro buf tmr c hc
    simp [handle_input_char, hc]
  have hdrain : drain HttpOutcome.transportError
      ⟨0, ['1', '2', '3', '4', '5', '6'], some (0 + SCAN_TIMEOUT)⟩ =
      (⟨(process_scan 0 (0 + SCAN_TIMEOUT) ['1', '2', '3', '4', '5', '6']
            HttpOutcome.transportError).last_scan_time, [], none⟩,
       [⟨['1', '2', '3', '4', '5', '6'], 0 + SCAN_TIMEOUT,
         (process_scan 0 (0 + SCAN_TIMEOUT) ['1', '2', '3', '4', '5', '6']
            HttpOutcome.transportError).requests,
         (process_scan 0 (0 + SCAN_TIMEOUT) ['1', '2', '3', '4', '5', '6']
            HttpOutcome.transportError).logs⟩]) := by
    simp [drain, flush_scan_buffer]
  constructor
  · have h1 : isTerminator '1' = false := by decide
    have h2 : isTerminator '2' = false := by decide
    have h3 : isTerminator '3' = false := by decide
    have h4 : isTerminator '4' = false := by decide
    have h5 : isTerminator '5' = false := by decide
    have h6 : isTerminator '6' = false := by decide
    simp only [burstNoTerm, runTimed, hfire0, hfire, hstep, h1, h2, h3, h4, h5, h6,
      List.nil_append, List.cons_append, List.append_nil]
    simp only [hdrain]
    simp
  · simp [burstNoTerm, stdinRun, stdinStep, isTerminator]

/-- C6, amended: the stdin fallback treats newline and carriage return as
the terminator and otherwise accumulates characters, flushing only on a
terminator (it keeps no debounce timer); a character sequence followed by a
terminator yields behaviour (state, candidates, validation, delivery)
identical to the device-read path given the same characters. -/
theorem C6_stdin_matches_device_path :
    ∀ (outcome : HttpOutcome) (s : SimpleState) (inputs : List (Char × ℚ))
      (term : Char) (tt : ℚ),
      (∀ p ∈ inputs, isTerminator p.1 = false) →
      isTerminator term = true →
      stdinRun outcome s (inputs ++ [(term, tt)]) =
        deviceCharRun outcome s (inputs ++ [('\n', tt)]) := by
  intro outcome s inputs
  induction inputs generalizing s with
  | nil =>
    intro term tt _ hterm
    simp only [List.nil_append, stdinRun, deviceCharRun]
    rw [stdinStep_term_eq outcome s term tt hterm]
  | cons p rest ih =>
    intro term tt hclean hterm
    obtain ⟨c, t⟩ := p
    have hc : isTerminator c = false := hclean (c, t) (List.mem_cons_self _ _)
    simp only [List.cons_append, stdinRun, deviceCharRun, List.append_eq]
    rw [stdinStep_eq_deviceCharStep outcome s c t hc,
      ih _ term tt (fun q hq => hclean q (List.mem_cons_of_mem _ hq)) hterm]

/-- C6 witness: the characters of scenario C followed by a carriage return
on stdin behave exactly as the same characters followed by newline on the
device path. -/
theorem C6_stdin_matches_device_path_witness :
    (∀ p ∈ scenarioCChars, isTerminator p.1 = false) ∧
    isTerminator '\r' = true ∧
    stdinRun (.ok true true) ⟨0, []⟩ (scenarioCChars ++ [('\r', 1)]) =
      deviceCharRun (.ok true true) ⟨0, []⟩ (scenarioCChars ++ [('\n', 1)]) := by
  refine ⟨by decide, by decide, ?_⟩
  exact C6_stdin_matches_device_path (.ok true true) ⟨0, []⟩ scenarioCChars
    '\r' 1 (by decide) (by decide)

/-- C7: the device read loop appends a character only for a full
EVENT_SIZE record that is a key-press event (type 1, value 1) whose code
the static table maps; a short read is discarded without being buffered, a
non-press event or an unmapped code leaves the state unchanged and emits
nothing, and no record ever terminates the loop (running the loop over an
appended list is running it over each part in turn). -/
theorem C7_device_decode_filter :
    ∀ (outcome : HttpOutcome) (s : SimpleState) (now : ℚ),
      (∀ (r : DeviceRecord) (c : Char),
        (deviceStep outcome s r now).1.scan_buffer = s.scan_buffer ++ [c] →
        ∃ e, r = .full e ∧ e.etype = 1 ∧ e.value = 1 ∧
          keycode_to_char e.code = some c) ∧
      (∀ len, deviceStep outcome s (.short len) now = (s, [])) ∧
      (∀ e, keycode_to_char e.code = none →
        deviceStep outcome s (.full e) now = (s, [])) ∧
      (∀ e, ¬(e.etype = 1 ∧ e.value = 1) →
        deviceStep outcome s (.full e) now = (s, [])) ∧
      (∀ (rs1 rs2 : List (DeviceRecord × ℚ)),
        deviceRun outcome s (rs1 ++ rs2) =
          ((deviceRun outcome (deviceRun outcome s rs1).1 rs2).1,
           (deviceRun outcome s rs1).2 ++
             (deviceRun outcome (deviceRun outcome s rs1).1 rs2).2)) := by
  intro outcome s now
  refine ⟨?_, ?_, ?_, ?_, fun rs1 rs2 => deviceRun_append outcome rs1 rs2 s⟩
  · intro r c hbuf
    cases r with
    | short len =>
      simp [deviceStep] at hbuf
    | full e =>
      by_cases hev : e.etype = 1 ∧ e.value = 1
      · cases hkc : keycode_to_char e.code with
        | none =>
          simp [deviceStep, hev, hkc] at hbuf
        | some c2 =>
          simp only [deviceStep, hev, if_true, hkc] at hbuf
          by_cases hnl : c2 = '\n'
          · subst hnl
            by_cases hstrip : (pyStrip s.scan_buffer).isEmpty = true
            · simp [deviceCharStep, hstrip] at hbuf
            · simp [deviceCharStep, hstrip] at hbuf
          · simp [deviceCharStep, hnl] at hbuf
            have hcc : c2 = c := by simpa using hbuf
            exact ⟨e, rfl, hev.1, hev.2, by rw [hkc, hcc]⟩
      · simp [deviceStep, hev] at hbuf
  · intro len
    rfl
  · intro e hkc
    by_cases hev : e.etype = 1 ∧ e.value = 1 <;>
      simp [deviceStep, hev, hkc]
  · intro e hev
    simp [deviceStep, hev]

/-- C7 witness: a key-press record with the unmapped code 1 leaves the
state unchanged and emits nothing. -/
theorem C7_device_decode_filter_witness :
    keycode_to_char 1 = none ∧
    deviceStep HttpOutcome.transportError ⟨0, ['1']⟩
      (.full ⟨0, 0, 1, 1, 1⟩) 5 = (⟨0, ['1']⟩, []) := by
  refine ⟨by decide, ?_⟩
  exact (C7_device_decode_filter HttpOutcome.transportError ⟨0, ['1']⟩ 5).2.2.1
    ⟨0, 0, 1, 1, 1⟩ (by decide)

/-- C8: for every scan, an accepted identifier produces exactly one POST
request, with body rfid = the stripped identifier and a 5 second timeout;
the issued requests do not depend on the HTTP outcome (so a transport
error or a non-200 status never causes a retry), and those failure
outcomes are logged at error severity. -/
theorem C8_fire_and_forget_delivery :
    ∀ (outcome : HttpOutcome) (last now : ℚ) (raw : List Char),
      ((process_scan last now raw outcome).requests =
        if is_valid_rfid (pyStrip raw) = true ∧ 1 ≤ now - last
        then [⟨pyStrip raw, 5⟩] else []) ∧
      (∀ outcome2, (process_scan last now raw outcome2).requests =
        (process_scan last now raw outcome).requests) ∧
      (is_valid_rfid (pyStrip raw) = true → 1 ≤ now - last →
        ((.error, .requestError) ∈
            (process_scan last now raw .transportError).logs ∧
         ∀ code, (.error, .flaskStatusError code) ∈
            (process_scan last now raw (.status code)).logs)) := by
  intro outcome last now raw
  refine ⟨process_scan_requests_eq last now raw outcome, ?_, ?_⟩
  · intro o2
    rw [process_scan_requests_eq, process_scan_requests_eq]
  · intro hv hd
    have hlt : ¬ (now - last < 1) := not_lt.mpr hd
    constructor
    · unfold process_scan
      simp [hv, hlt, responseLogs]
    · intro code
      unfold process_scan
      simp [hv, hlt, responseLogs]

/-- C8 witness: at the concrete accepted scan 123456 with last = 0 and
now = 10, a transport error leaves an error log record. -/
theorem C8_fire_and_forget_delivery_witness :
    is_valid_rfid (pyStrip "123456".toList) = true ∧
    (1 : ℚ) ≤ 10 - 0 ∧
    (LogLevel.error, LogMsg.requestError) ∈
      (process_scan 0 10 "123456".toList HttpOutcome.transportError).logs := by
  refine ⟨by decide, by norm_num, ?_⟩
  exact ((C8_fire_and_forget_delivery .transportError 0 10 "123456".toList).2.2
    (by decide) (by norm_num)).1

/-- C9, counterexample: the value test_device_input reports to its caller
is the same (False) for a timeout and for a permission failure, and the
caller consequently behaves identically in both cases — the permission
failure is not reported to the caller as an error distinguishable from the
timeout failure. -/
theorem C9_counterexample :
    (test_device_input .timeout).1 = (test_device_input .permissionDenied).1 ∧
    selectorAfterProbe .timeout "/dev/input/event4" =
      selectorAfterProbe .permissionDenied "/dev/input/event4" := by
  exact ⟨rfl, rfl⟩

/-- C9, amended: a timeout with zero bytes and a permission failure both
report plain failure (False) to the caller, which falls back to stdin with
the same generic message in either case; the permission failure is
distinguishable only in the log stream, where the probe itself writes an
error-severity record and the actionable remediation guidance, while the
timeout writes no error-severity record. -/
theorem C9_probe_failure_reporting :
    ((test_device_input .timeout).1 = .rFalse) ∧
    ((test_device_input .permissionDenied).1 = .rFalse) ∧
    ((.error, .permissionDeniedMsg) ∈ (test_device_input .permissionDenied).2) ∧
    ((.info, .remediationUsermod) ∈ (test_device_input .permissionDenied).2) ∧
    ((.info, .remediationNewgrp) ∈ (test_device_input .permissionDenied).2) ∧
    (∀ lvl m, (lvl, m) ∈ (test_device_input .timeout).2 → lvl ≠ LogLevel.error) ∧
    (∀ (p : String) (b : DeviceBehavior),
      probeTruthy (test_device_input b).1 = false →
      selectorAfterProbe b p = (.StdinRead, .deviceTestFailed)) := by
  refine ⟨rfl, rfl, by decide, by decide, by decide, ?_, ?_⟩
  · intro lvl m hm
    simp [test_device_input] at hm
    rcases hm with ⟨h, _⟩ | ⟨h, _⟩ | ⟨h, _⟩ <;> subst h <;> decide
  · intro p b hb
    simp [selectorAfterProbe, hb]

/-- C9 witness: on a concrete permission failure the caller receives plain
failure and falls back to stdin with the generic message. -/
theorem C9_probe_failure_reporting_witness :
    probeTruthy (test_device_input DeviceBehavior.permissionDenied).1 = false ∧
    selectorAfterProbe DeviceBehavior.permissionDenied "/dev/input/event4" =
      (AcquisitionStrategy.StdinRead, CallerMsg.deviceTestFailed) := by
  refine ⟨rfl, ?_⟩
  exact C9_probe_failure_reporting.2.2.2.2.2.2 "/dev/input/event4"
    DeviceBehavior.permissionDenied rfl

/-- C10: every candidate is stripped of leading and trailing whitespace
before validation and delivery — the request list is determined by the
validator applied to the stripped string, every delivered identifier has no
leading or trailing whitespace, and the concrete raw buffer of length 22
(outside [6, 20]) whose stripped form is 123456 is still accepted and
delivered stripped. -/
theorem C10_stripped_before_validation :
    ∀ (outcome : HttpOutcome) (last now : ℚ) (raw : List Char),
      ((process_scan last now raw outcome).requests =
        if is_valid_rfid (pyStrip raw) = true ∧ 1 ≤ now - last
        then [⟨pyStrip raw, 5⟩] else []) ∧
      (∀ q ∈ (process_scan last now raw outcome).requests,
        (∀ c, q.rfid.head? = some c → pyIsSpace c = false) ∧
        (∀ c, q.rfid.getLast? = some c → pyIsSpace c = false)) ∧
      (paddedRaw.length = 22 ∧ MAX_RFID_LENGTH < paddedRaw.length ∧
        (process_scan 0 10 paddedRaw outcome).requests =
          [⟨"123456".toList, 5⟩]) := by
  intro outcome last now raw
  refine ⟨process_scan_requests_eq last now raw outcome, ?_, by decide, by decide, ?_⟩
  · intro q hq
    rw [process_scan_requests_eq] at hq
    by_cases hacc : is_valid_rfid (pyStrip raw) = true ∧ 1 ≤ now - last
    · rw [if_pos hacc] at hq
      simp at hq
      subst hq
      exact ⟨fun c hc => pyStrip_head raw c hc, fun c hc => pyStrip_getLast raw c hc⟩
    · rw [if_neg hacc] at hq
      simp at hq
  · rw [process_scan_requests_eq]
    rw [if_pos ⟨by decide, by norm_num⟩]
    have : pyStrip paddedRaw = "123456".toList := by decide
    rw [this]

/-- C10 witness: the concrete padded raw buffer evaluated through
process_scan: its single delivered request carries the stripped identifier,
whose first and last characters are not whitespace. -/
theorem C10_stripped_before_validation_witness :
    (⟨"123456".toList, 5⟩ : ScanRequest) ∈
      (process_scan 0 10 paddedRaw HttpOutcome.transportError).requests ∧
    (∀ c, ((⟨"123456".toList, 5⟩ : ScanRequest)).rfid.head? = some c →
      pyIsSpace c = false) := by
  have h := C10_stripped_before_validation HttpOutcome.transportError 0 10 paddedRaw
  have hm : (⟨"123456".toList, 5⟩ : ScanRequest) ∈
      (process_scan 0 10 paddedRaw HttpOutcome.transportError).requests := by
    rw [h.2.2.2.2]
    exact List.mem_singleton.mpr rfl
  exact ⟨hm, (h.2.1 _ hm).1⟩

end Rfid
